import Mathlib

/- Batteries marks the arithmetic on `Rat` `@[irreducible]`; restore the
default reducibility inside this file so that concrete instances of the
embedded computations can be settled by `decide`. -/
attribute [local semireducible] Rat.add Rat.mul Rat.sub Rat.inv Rat.ofScientific

/-!
Shallow embedding of `src/josemltools/eda.py` (exploratory-data-analysis
helpers over pandas dataframes) and proofs about its statistics / outlier
computations.

Modelling conventions:
* pandas cell values are rationals; a missing value (`NaN`) is `none`.
* A dataframe is a list of named columns (with a numeric-dtype tag, used by
  `select_dtypes(include=np.number)`) together with the shared row count.
* `Series.quantile(p)` (default linear interpolation) is embedded as linear
  interpolation at rank `p * (n - 1)` over the sorted non-missing values;
  quantiles of an empty value list are `NaN` (`none`).
* Comparisons against `NaN` are `False`, as in pandas; arithmetic on `NaN`
  propagates `NaN`.
* Python exceptions and the spec's error kinds are gathered in one error
  type; operations that can raise return `Except`.
* Plotting (`seaborn` / `matplotlib`) and the Shapiro-Wilk call are side
  effects outside the computation embedded here; the printed statistics that
  the claims are about are returned as record fields instead.
-/

/-- A pandas cell: a rational value or missing (`NaN` / `NA`). -/
abbrev Cell := Option ℚ

/-- A named dataframe column with its numeric-dtype tag and cells. -/
structure Column where
  name : String
  numeric : Bool
  cells : List Cell
deriving DecidableEq

/-- A dataframe: columns plus the shared row count (`len(df)`). -/
structure DFrame where
  cols : List Column
  nrows : ℕ
deriving DecidableEq

/-- Column lookup by name, as in `df[col]`. -/
def DFrame.col? (df : DFrame) (c : String) : Option Column :=
  df.cols.find? (fun k => k.name == c)

/-- The non-missing values of a column, in row order (pandas statistics skip
`NaN`). -/
def Column.dropna (c : Column) : List ℚ :=
  c.cells.filterMap id

/-- Linear interpolation at fractional rank `h` over an (assumed sorted) value
list, the arithmetic at the heart of `Series.quantile` with the default
`interpolation="linear"`. -/
def interpQ (l : List ℚ) (h : ℚ) : ℚ :=
  let i : ℕ := (⌊h⌋).toNat
  l.getD i 0 + (h - (⌊h⌋ : ℚ)) * (l.getD (i + 1) 0 - l.getD i 0)

/-- Embedding of `Series.quantile(p)`: sort the non-missing values and
interpolate linearly at rank `p * (n - 1)`; `NaN` on an empty list. -/
def quantile (l : List ℚ) (p : ℚ) : Option ℚ :=
  if l = [] then none
  else some (interpQ (l.insertionSort (· ≤ ·)) (p * ((l.length : ℚ) - 1)))

/-- `NaN`-propagating subtraction on possibly-missing values. -/
def nsub : Option ℚ → Option ℚ → Option ℚ
  | some a, some b => some (a - b)
  | _, _ => none

/-- `NaN`-propagating addition on possibly-missing values. -/
def nadd : Option ℚ → Option ℚ → Option ℚ
  | some a, some b => some (a + b)
  | _, _ => none

/-- `NaN`-propagating scaling of a possibly-missing value. -/
def nscale (c : ℚ) : Option ℚ → Option ℚ
  | some a => some (c * a)
  | none => none

/-- Embedding of a pandas `<` comparison of a cell against a possibly-`NaN`
bound: any comparison involving `NaN` is `False`. -/
def cellLt (x : Cell) (b : Option ℚ) : Bool :=
  match x, b with
  | some v, some w => decide (v < w)
  | _, _ => false

/-- Embedding of a pandas `>` comparison of a cell against a possibly-`NaN`
bound: any comparison involving `NaN` is `False`. -/
def cellGt (x : Cell) (b : Option ℚ) : Bool :=
  match x, b with
  | some v, some w => decide (w < v)
  | _, _ => false

/-- Error kinds. `keyError` and `zeroDivisionError` are the Python exceptions
the code in `eda.py` can actually raise (`df[col]` on a missing column, and
the `/len(df)` percentage on an empty dataframe). `emptyColumnError`,
`columnNotFoundError` and `invalidColumnTypeError` are the error kinds named
by the specification's error-handling contract; they are included so that
theorems can state whether the code ever signals them. -/
inductive PyError where
  | keyError (key : String)
  | zeroDivisionError
  | emptyColumnError
  | columnNotFoundError
  | invalidColumnTypeError
deriving DecidableEq

/-- Round to the nearest integer with ties to even, the behaviour of Python 3
`round`. -/
def rndHalfEven (x : ℚ) : ℤ :=
  if x - (⌊x⌋ : ℚ) = 1 / 2 then (if 2 ∣ ⌊x⌋ then ⌊x⌋ else ⌊x⌋ + 1)
  else round x

/-- Embedding of Python `round(x, 2)`: round to 2 decimal places, ties to
even. -/
def round2 (x : ℚ) : ℚ :=
  (rndHalfEven (100 * x) : ℚ) / 100

/-- The numbers computed and printed by `study_column_continuous` for a
column: the three quartiles `df[col].quantile(i/4)`, the interquartile range,
the Tukey fences, the rows of the returned outlier sub-dataframe
`df[(df[col] < lowerBound) | (df[col] > upperBound)]` (as row indices), and
the printed outlier percentage `round(len(outliers)*100/len(df), 2)`. -/
structure ContStudy where
  q1 : Option ℚ
  q2 : Option ℚ
  q3 : Option ℚ
  iqr : Option ℚ
  lowerBound : Option ℚ
  upperBound : Option ℚ
  outliers : List ℕ
  outlierPct : ℚ
deriving DecidableEq

/-- The high fence `q3 + 1.5*(q3 - q1)` computed from the column values:
`upperBound` of `study_column_continuous` (line 56) and the bound of
`count_outliers_per_column` at line 206 (the same expression). -/
def highBound (c : Column) : Option ℚ :=
  nadd (quantile c.dropna (3 / 4))
    (nscale 1.5 (nsub (quantile c.dropna (3 / 4)) (quantile c.dropna (1 / 4))))

/-- The low fence `q1 - 1.5*(q3 - q1)` computed from the column values:
`lowerBound` of `study_column_continuous` (line 55) and the bound of
`count_outliers_per_column` at line 207 (the same expression). -/
def lowBound (c : Column) : Option ℚ :=
  nsub (quantile c.dropna (1 / 4))
    (nscale 1.5 (nsub (quantile c.dropna (3 / 4)) (quantile c.dropna (1 / 4))))

/-- `len(df[df[col] > high fence])`: the number of high outliers of a column
(line 206). -/
def highCount (c : Column) : ℕ :=
  (c.cells.filter (fun x => cellGt x (highBound c))).length

/-- `len(df[df[col] < low fence])`: the number of low outliers of a column
(line 207). -/
def lowCount (c : Column) : ℕ :=
  (c.cells.filter (fun x => cellLt x (lowBound c))).length

/-- The rows of the outlier sub-dataframe
`df[(df[col] < lowerBound) | (df[col] > upperBound)]` built at line 105, as
row indices; a row qualifies iff its cell is strictly below the low fence or
strictly above the high fence (comparisons against `NaN` are `False`). -/
def outlierRows (df : DFrame) (c : Column) : List ℕ :=
  (List.range df.nrows).filter (fun r =>
    cellLt (c.cells.getD r none) (lowBound c) || cellGt (c.cells.getD r none) (highBound c))

/-- The computation performed by `study_column_continuous(df, col)` in
`eda.py` (lines 12-108), stripped of plotting and printing side effects:
quantiles `df[col].quantile(i/4)` for `i = 1, 2, 3` (line 49),
`iqr = quants[2] - quants[0]` (line 52), the fences
`quants[0] - 1.5*iqr` and `quants[2] + 1.5*iqr` (lines 55-56, the same
expressions as `lowBound` / `highBound`), the outlier rows (line 105) and
the printed outlier percentage (line 106). A missing column raises
`KeyError` at `df[col]`; a dataframe with zero rows raises
`ZeroDivisionError` at the `/len(df)` division of line 106. -/
def study_column_continuous (df : DFrame) (col : String) : Except PyError ContStudy :=
  match df.col? col with
  | none => .error (.keyError col)
  | some c =>
    if df.nrows = 0 then .error .zeroDivisionError
    else .ok ⟨quantile c.dropna (1 / 4), quantile c.dropna (2 / 4), quantile c.dropna (3 / 4),
      nsub (quantile c.dropna (3 / 4)) (quantile c.dropna (1 / 4)),
      lowBound c, highBound c, outlierRows df c,
      round2 ((((outlierRows df c).length : ℚ) * 100) / (df.nrows : ℚ))⟩

/-- A value stored in the result dataframe of `count_outliers_per_column`:
either a column name or a number. -/
inductive RVal where
  | str (s : String)
  | num (q : ℚ)
deriving DecidableEq

/-- The result dataframe built by `count_outliers_per_column`: named columns
of possibly-missing values, plus the current row count. -/
structure RFrame where
  cols : List (String × List (Option RVal))
  nrows : ℕ
deriving DecidableEq

/-- Column lookup by name in a result dataframe. -/
def RFrame.lookup (rf : RFrame) (name : String) : Option (List (Option RVal)) :=
  (rf.cols.find? (fun kv => kv.1 == name)).map (fun kv => kv.2)

/-- Embedding of old-pandas `DataFrame.append(record, ignore_index=True)`
for a dict record: every existing column gets the record's value under its
exact name (`NaN` when the record has no such key, matching case
sensitively); record keys that name no existing column become new columns,
`NaN` in all earlier rows. -/
def RFrame.appendRow (rf : RFrame) (rec : List (String × RVal)) : RFrame :=
  let updated := rf.cols.map
    (fun kv => (kv.1, kv.2 ++ [(rec.find? (fun e => e.1 == kv.1)).map (fun e => e.2)]))
  let fresh := (rec.filter (fun e => !(rf.cols.any (fun kv => kv.1 == e.1)))).map
    (fun e => (e.1, List.replicate rf.nrows (none : Option RVal) ++ [some e.2]))
  ⟨updated ++ fresh, rf.nrows + 1⟩

/-- The dict appended for one numeric column by `count_outliers_per_column`
(lines 209-215), with its exact key strings, including the capitalised
"Number of High outliers" / "Number of Low outliers" keys. -/
def makeRecord (lenDf : ℕ) (c : Column) : List (String × RVal) :=
  [("Column", .str c.name),
   ("Number of High outliers", .num (highCount c)),
   ("Number of Low outliers", .num (lowCount c)),
   ("High outliers %", .num (round2 (((highCount c : ℚ) * 100) / (lenDf : ℚ)))),
   ("Low outliers %", .num (round2 (((lowCount c : ℚ) * 100) / (lenDf : ℚ))))]

/-- The loop of `count_outliers_per_column` over the numeric columns; the
percentage division raises `ZeroDivisionError` when `len(df) = 0`. -/
def cocLoop (lenDf : ℕ) (acc : RFrame) : List Column → Except PyError RFrame
  | [] => .ok acc
  | c :: rest =>
    if lenDf = 0 then .error .zeroDivisionError
    else cocLoop lenDf (acc.appendRow (makeRecord lenDf c)) rest

/-- The empty result dataframe declared at line 202, with its lower-case
"Number of high outliers" / "Number of low outliers" column names. -/
def initRFrame : RFrame :=
  ⟨[("Column", []), ("Number of high outliers", []), ("Number of low outliers", [])], 0⟩

/-- Embedding of `count_outliers_per_column(df)` (lines 186-216). -/
def count_outliers_per_column (df : DFrame) : Except PyError RFrame :=
  cocLoop df.nrows initRFrame (df.cols.filter (fun c => c.numeric))

/-- The largest frequency of any value of the list. -/
def maxCount (l : List ℚ) : ℕ :=
  (l.map (fun v => l.count v)).foldr max 0

/-- Embedding of pandas `Series.mode()` on the non-missing values: the values
of maximal frequency, sorted ascending. -/
def modeList (l : List ℚ) : List ℚ :=
  ((l.dedup).filter (fun v => l.count v == maxCount l)).insertionSort (· ≤ ·)

/-- Embedding of `series.mode()[0]`: the first (smallest) of the most
frequent values, `none` when there are no values. -/
def mode0 (l : List ℚ) : Option ℚ :=
  (modeList l).head?

/-- The mode printed by `study_column_discrete` (line 135,
`df[col].mode()[0]`). A missing column raises `KeyError` at `df[col]`. -/
def study_column_discrete_mode (df : DFrame) (col : String) : Except PyError (Option ℚ) :=
  match df.col? col with
  | none => .error (.keyError col)
  | some c => .ok (mode0 c.dropna)

/-- The mode printed by `study_column_categorical` (line 167,
`df[col].mode()[0]`). A missing column raises `KeyError` at `df[col]`. -/
def study_column_categorical_mode (df : DFrame) (col : String) : Except PyError (Option ℚ) :=
  match df.col? col with
  | none => .error (.keyError col)
  | some c => .ok (mode0 c.dropna)

/-- The three-way skewness classification printed by
`study_column_continuous` (lines 84-89): `skew < -1 or skew > 1` prints
"highly skewed"; otherwise `skew >= -1 and skew < -0.5 or skew > 0.5 and
skew <= 1` prints "moderately skewed"; otherwise nothing is printed, the
approximately-symmetric case. -/
inductive SkewCat where
  | highly
  | moderately
  | symmetric
deriving DecidableEq

/-- The branch structure of the skew study (lines 84-89), transcribed with
Python's `and`-over-`or` precedence. -/
def classifySkew (s : ℚ) : SkewCat :=
  if s < -1 ∨ 1 < s then .highly
  else if (-1 ≤ s ∧ s < -0.5) ∨ (0.5 < s ∧ s ≤ 1) then .moderately
  else .symmetric

/-- The interpretation of the Shapiro-Wilk p-value at line 100: the sample
looks Gaussian iff `p > 0.05`. -/
def is_gaussian (p : ℚ) : Bool :=
  decide ((0.05 : ℚ) < p)

/-! Decidable equality for `Except`, used to settle concrete runs of the
embedded operations. -/

deriving instance DecidableEq for Except

/-! General lemmas about the embedded computations. -/

lemma getD_sorted_mono {l : List ℚ} (hs : l.Sorted (· ≤ ·)) {a b : ℕ}
    (hab : a ≤ b) (hb : b < l.length) : l.getD a 0 ≤ l.getD b 0 := by
  have ha : a < l.length := Nat.lt_of_le_of_lt hab hb
  rw [List.getD_eq_getElem l 0 ha, List.getD_eq_getElem l 0 hb]
  have h := hs.rel_get_of_le (a := ⟨a, ha⟩) (b := ⟨b, hb⟩) (Fin.mk_le_mk.mpr hab)
  simpa using h

lemma interpQ_mono {l : List ℚ} (hs : l.Sorted (· ≤ ·)) {x y : ℚ}
    (hx : 0 ≤ x) (hxy : x ≤ y) (hy : y ≤ (l.length : ℚ) - 1) :
    interpQ l x ≤ interpQ l y := by
  have hn1 : 1 ≤ l.length := by
    by_contra hn
    have h0 : l.length = 0 := by omega
    rw [h0] at hy
    push_cast at hy
    linarith
  have hfx0 : (0 : ℤ) ≤ ⌊x⌋ := Int.floor_nonneg.mpr hx
  have hfy0 : (0 : ℤ) ≤ ⌊y⌋ := le_trans hfx0 (Int.floor_le_floor hxy)
  have hgx0 : 0 ≤ x - (⌊x⌋ : ℚ) := sub_nonneg.mpr (Int.floor_le x)
  have hgx1 : x - (⌊x⌋ : ℚ) < 1 := by
    have h := Int.lt_floor_add_one x
    linarith
  have hgy0 : 0 ≤ y - (⌊y⌋ : ℚ) := sub_nonneg.mpr (Int.floor_le y)
  simp only [interpQ]
  generalize hidef : (⌊x⌋).toNat = i
  generalize hjdef : (⌊y⌋).toNat = j
  have hiz : ((i : ℤ)) = ⌊x⌋ := by rw [← hidef]; exact Int.toNat_of_nonneg hfx0
  have hjz : ((j : ℤ)) = ⌊y⌋ := by rw [← hjdef]; exact Int.toNat_of_nonneg hfy0
  have hflf : ⌊x⌋ ≤ ⌊y⌋ := Int.floor_le_floor hxy
  have hij : i ≤ j := by omega
  have hjq : ((j : ℚ)) ≤ (l.length : ℚ) - 1 := by
    have h1 : (((j : ℤ)) : ℚ) ≤ y := by
      rw [hjz]
      exact Int.floor_le y
    push_cast at h1
    linarith
  have hjlt : j < l.length := by
    have h2 : ((j : ℚ)) + 1 ≤ (l.length : ℚ) := by linarith
    have h3 : j + 1 ≤ l.length := by exact_mod_cast h2
    omega
  rcases Nat.lt_or_ge i j with hlt | hge
  · -- the two ranks fall in different segments of the piecewise-linear curve
    have hi1n : i + 1 < l.length := by omega
    have hi1j : i + 1 ≤ j := hlt
    have hD : l.getD i 0 ≤ l.getD (i + 1) 0 := getD_sorted_mono hs (Nat.le_succ i) hi1n
    have step1 : l.getD i 0 + (x - (⌊x⌋ : ℚ)) * (l.getD (i + 1) 0 - l.getD i 0) ≤ l.getD (i + 1) 0 := by
      nlinarith [mul_nonneg (by linarith : (0:ℚ) ≤ 1 - (x - (⌊x⌋ : ℚ))) (sub_nonneg.mpr hD)]
    have step2 : l.getD (i + 1) 0 ≤ l.getD j 0 := getD_sorted_mono hs hi1j hjlt
    have step3 : l.getD j 0 ≤ l.getD j 0 + (y - (⌊y⌋ : ℚ)) * (l.getD (j + 1) 0 - l.getD j 0) := by
      by_cases hj1 : j + 1 < l.length
      · have hD' : l.getD j 0 ≤ l.getD (j + 1) 0 := getD_sorted_mono hs (Nat.le_succ j) hj1
        nlinarith [mul_nonneg hgy0 (sub_nonneg.mpr hD')]
      · have hjn : j + 1 = l.length := by omega
        have hyj : y - ((⌊y⌋ : ℤ) : ℚ) = 0 := by
          have h4 : ((j : ℚ)) = (l.length : ℚ) - 1 := by
            have := hjn
            push_cast [← hjn]
            ring
          have h5 : y ≤ ((j : ℚ)) := by rw [h4]; exact hy
          have h6 : (((j : ℤ)) : ℚ) ≤ y := by rw [hjz]; exact Int.floor_le y
          push_cast at h6
          have h7 : (((⌊y⌋ : ℤ)) : ℚ) = ((j : ℚ)) := by rw [← hjz]; push_cast; ring
          rw [h7]
          linarith
        rw [hyj]
        simp
    linarith
  · have hieq : i = j := le_antisymm hij hge
    subst hieq
    have hfleq : ⌊x⌋ = ⌊y⌋ := by omega
    by_cases hj1 : i + 1 < l.length
    · have hD : l.getD i 0 ≤ l.getD (i + 1) 0 := getD_sorted_mono hs (Nat.le_succ i) hj1
      have hgxy : x - (⌊x⌋ : ℚ) ≤ y - (⌊y⌋ : ℚ) := by
        rw [hfleq] at *
        linarith
      nlinarith [mul_nonneg (sub_nonneg.mpr hgxy) (sub_nonneg.mpr hD)]
    · have hjn : i + 1 = l.length := by omega
      have hxeqy : x = y := by
        have h4 : ((i : ℚ)) = (l.length : ℚ) - 1 := by
          push_cast [← hjn]
          ring
        have h6 : (((i : ℤ)) : ℚ) ≤ x := by rw [hiz]; exact Int.floor_le x
        push_cast at h6
        have h8 : y ≤ ((i : ℚ)) := by rw [h4]; exact hy
        linarith
      rw [hxeqy]

lemma quantile_eq_some {l : List ℚ} (hne : l ≠ []) (p : ℚ) :
    quantile l p = some (interpQ (l.insertionSort (· ≤ ·)) (p * ((l.length : ℚ) - 1))) := by
  unfold quantile
  rw [if_neg hne]

lemma quantile_mono {l : List ℚ} (hne : l ≠ []) {p p' : ℚ}
    (hp0 : 0 ≤ p) (hpp : p ≤ p') (hp1 : p' ≤ 1) :
    interpQ (l.insertionSort (· ≤ ·)) (p * ((l.length : ℚ) - 1)) ≤
      interpQ (l.insertionSort (· ≤ ·)) (p' * ((l.length : ℚ) - 1)) := by
  have hs := List.sorted_insertionSort (· ≤ ·) l
  have hlen : (l.insertionSort (· ≤ ·)).length = l.length := List.length_insertionSort _ l
  have hn1 : 1 ≤ l.length := List.length_pos.mpr hne
  have hc0 : (0 : ℚ) ≤ (l.length : ℚ) - 1 := by
    have : (1 : ℚ) ≤ (l.length : ℚ) := by exact_mod_cast hn1
    linarith
  apply interpQ_mono hs
  · exact mul_nonneg hp0 hc0
  · exact mul_le_mul_of_nonneg_right hpp hc0
  · rw [hlen]
    exact mul_le_of_le_one_left hc0 hp1

lemma study_ok {df : DFrame} {col : String} {c : Column}
    (hc : df.col? col = some c) (hn : df.nrows ≠ 0) :
    study_column_continuous df col =
      .ok ⟨quantile c.dropna (1 / 4), quantile c.dropna (2 / 4), quantile c.dropna (3 / 4),
        nsub (quantile c.dropna (3 / 4)) (quantile c.dropna (1 / 4)),
        lowBound c, highBound c, outlierRows df c,
        round2 ((((outlierRows df c).length : ℚ) * 100) / (df.nrows : ℚ))⟩ := by
  unfold study_column_continuous
  rw [hc]
  exact if_neg hn

lemma bounds_eq_some {c : Column} {a b : ℚ}
    (ha : quantile c.dropna (1 / 4) = some a) (hb : quantile c.dropna (3 / 4) = some b) :
    lowBound c = some (a - 1.5 * (b - a)) ∧ highBound c = some (b + 1.5 * (b - a)) := by
  constructor <;> simp only [lowBound, highBound, ha, hb, nsub, nadd, nscale]

/-! Concrete dataframes used by the claims' examples. -/

/-- The single-column dataframe holding `[1, 2, 3, 4, 5, 100]`. -/
def df6 : DFrame := ⟨[⟨"x", true, [some 1, some 2, some 3, some 4, some 5, some 100]⟩], 6⟩

/-- The single-column dataframe holding the repeated value `[5, 5, 5, 5]`. -/
def df55 : DFrame := ⟨[⟨"x", true, [some 5, some 5, some 5, some 5]⟩], 4⟩

/-- A dataframe with three rows whose only column is entirely missing. -/
def dfAllNaN : DFrame := ⟨[⟨"x", true, [none, none, none]⟩], 3⟩

/-- A dataframe with zero rows and one numeric-typed (empty) column. -/
def dfEmpty : DFrame := ⟨[⟨"x", true, []⟩], 0⟩

/-- A dataframe with two rows whose only (numeric) column is entirely
missing. -/
def dfNaN2 : DFrame := ⟨[⟨"x", true, [none, none]⟩], 2⟩

/-- The single-column dataframe holding `[1, 1, 2, 2]`. -/
def df1122 : DFrame := ⟨[⟨"x", true, [some 1, some 1, some 2, some 2]⟩], 4⟩

/-- C7: for every column with at least one non-missing value (in a dataframe
with at least one row), the quartiles computed by `study_column_continuous`
satisfy `q1 <= q2 <= q3` and `iqr = q3 - q1 >= 0`, and the median lies
between the Tukey fences, `lower_bound <= q2 <= upper_bound`, so the median
is never classified as its own outlier. -/
theorem c7_quartile_invariants (df : DFrame) (col : String) (c : Column)
    (hc : df.col? col = some c) (hne : c.dropna ≠ []) (hn : df.nrows ≠ 0) :
    ∃ st a b d, study_column_continuous df col = .ok st ∧
      st.q1 = some a ∧ st.q2 = some b ∧ st.q3 = some d ∧
      st.iqr = some (d - a) ∧
      a ≤ b ∧ b ≤ d ∧ 0 ≤ d - a ∧
      st.lowerBound = some (a - 1.5 * (d - a)) ∧
      st.upperBound = some (d + 1.5 * (d - a)) ∧
      a - 1.5 * (d - a) ≤ b ∧ b ≤ d + 1.5 * (d - a) := by
  have hq1 := quantile_eq_some hne (1 / 4)
  have hq2 := quantile_eq_some hne (2 / 4)
  have hq3 := quantile_eq_some hne (3 / 4)
  have h12 : interpQ (c.dropna.insertionSort (· ≤ ·)) ((1 / 4) * ((c.dropna.length : ℚ) - 1)) ≤
      interpQ (c.dropna.insertionSort (· ≤ ·)) ((2 / 4) * ((c.dropna.length : ℚ) - 1)) :=
    quantile_mono hne (by norm_num) (by norm_num) (by norm_num)
  have h23 : interpQ (c.dropna.insertionSort (· ≤ ·)) ((2 / 4) * ((c.dropna.length : ℚ) - 1)) ≤
      interpQ (c.dropna.insertionSort (· ≤ ·)) ((3 / 4) * ((c.dropna.length : ℚ) - 1)) :=
    quantile_mono hne (by norm_num) (by norm_num) (by norm_num)
  obtain ⟨hlb, hub⟩ := bounds_eq_some hq1 hq3
  refine ⟨_, _, _, _, study_ok hc hn, hq1, hq2, hq3, by simp only [nsub, hq1, hq3], h12, h23,
    by linarith, hlb, hub, by nlinarith, by nlinarith⟩

/-- Witness for `c7_quartile_invariants` at the dataframe `df6` holding
`[1, 2, 3, 4, 5, 100]`. -/
theorem c7_quartile_invariants_witness :
    ∃ st a b d, study_column_continuous df6 "x" = .ok st ∧
      st.q1 = some a ∧ st.q2 = some b ∧ st.q3 = some d ∧
      st.iqr = some (d - a) ∧
      a ≤ b ∧ b ≤ d ∧ 0 ≤ d - a ∧
      st.lowerBound = some (a - 1.5 * (d - a)) ∧
      st.upperBound = some (d + 1.5 * (d - a)) ∧
      a - 1.5 * (d - a) ≤ b ∧ b ≤ d + 1.5 * (d - a) :=
  c7_quartile_invariants df6 "x" ⟨"x", true, [some 1, some 2, some 3, some 4, some 5, some 100]⟩
    (by decide) (by decide) (by decide)

lemma mem_outlierRows {df : DFrame} {c : Column} {a b : ℚ}
    (ha : lowBound c = some a) (hb : highBound c = some b) (r : ℕ) :
    r ∈ outlierRows df c ↔ r < df.nrows ∧ ∃ v, c.cells.getD r none = some v ∧ (v < a ∨ b < v) := by
  unfold outlierRows
  rw [List.mem_filter, List.mem_range]
  cases hcell : c.cells.getD r none with
  | none => simp [cellLt, cellGt, hcell, ha, hb]
  | some v => simp [cellLt, cellGt, hcell, ha, hb]

/-- C1: for every column with a non-missing value, `study_column_continuous`
computes `iqr = q3 - q1`, `lower_bound = q1 - 1.5*iqr`,
`upper_bound = q3 + 1.5*iqr`, and a row enters the returned outlier set iff
its value `v` satisfies `v < lower_bound` or `v > upper_bound` (strict
inequalities); consequently on the constant column `[5, 5, 5, 5]` the bounds
are `[5, 5]` with `iqr = 0` and no row is an outlier. -/
theorem c1_outlier_bounds (df : DFrame) (col : String) (c : Column)
    (hc : df.col? col = some c) (hne : c.dropna ≠ []) (hn : df.nrows ≠ 0) :
    (∃ st a b, study_column_continuous df col = .ok st ∧
      st.q1 = some a ∧ st.q3 = some b ∧
      st.iqr = some (b - a) ∧
      st.lowerBound = some (a - 1.5 * (b - a)) ∧
      st.upperBound = some (b + 1.5 * (b - a)) ∧
      (∀ r, r ∈ st.outliers ↔ r < df.nrows ∧ ∃ v, c.cells.getD r none = some v ∧
        (v < a - 1.5 * (b - a) ∨ b + 1.5 * (b - a) < v))) ∧
    study_column_continuous df55 "x" =
      .ok ⟨some 5, some 5, some 5, some 0, some 5, some 5, [], 0⟩ := by
  have hq1 := quantile_eq_some hne (1 / 4)
  have hq3 := quantile_eq_some hne (3 / 4)
  obtain ⟨hlb, hub⟩ := bounds_eq_some hq1 hq3
  refine ⟨⟨_, _, _, study_ok hc hn, hq1, hq3, by simp only [nsub, hq1, hq3], hlb, hub,
    fun r => mem_outlierRows hlb hub r⟩, by decide⟩

/-- Witness for `c1_outlier_bounds` at the dataframe `df6` holding
`[1, 2, 3, 4, 5, 100]`. -/
theorem c1_outlier_bounds_witness :
    (∃ st a b, study_column_continuous df6 "x" = .ok st ∧
      st.q1 = some a ∧ st.q3 = some b ∧
      st.iqr = some (b - a) ∧
      st.lowerBound = some (a - 1.5 * (b - a)) ∧
      st.upperBound = some (b + 1.5 * (b - a)) ∧
      (∀ r, r ∈ st.outliers ↔ r < df6.nrows ∧
        ∃ v, (⟨"x", true, [some 1, some 2, some 3, some 4, some 5, some 100]⟩ : Column).cells.getD r none = some v ∧
        (v < a - 1.5 * (b - a) ∨ b + 1.5 * (b - a) < v))) ∧
    study_column_continuous df55 "x" =
      .ok ⟨some 5, some 5, some 5, some 0, some 5, some 5, [], 0⟩ :=
  c1_outlier_bounds df6 "x" ⟨"x", true, [some 1, some 2, some 3, some 4, some 5, some 100]⟩
    (by decide) (by decide) (by decide)

/-- C2: on the column `[1, 2, 3, 4, 5, 100]`, the linear-interpolation
quantiles give `q1 = 2.25`, `q2 = 3.5`, `q3 = 4.75`, `iqr = 2.5`,
`lower_bound = -1.5`, `upper_bound = 8.5`, and the returned outlier set is
exactly the row of index 5, the one holding `100` — one high outlier
(`100 > 8.5`) and zero low outliers. -/
theorem c2_interpolated_quartiles_example :
    study_column_continuous df6 "x" =
      .ok ⟨some 2.25, some 3.5, some 4.75, some 2.5, some (-1.5), some 8.5, [5], 16.67⟩ ∧
    (⟨"x", true, [some 1, some 2, some 3, some 4, some 5, some 100]⟩ : Column).cells.getD 5 none = some 100 ∧
    highCount ⟨"x", true, [some 1, some 2, some 3, some 4, some 5, some 100]⟩ = 1 ∧
    lowCount ⟨"x", true, [some 1, some 2, some 3, some 4, some 5, some 100]⟩ = 0 := by
  decide

/-- C3 counterexample: a column that exists but has zero non-missing values
(three rows, all `NaN`) does not make `study_column_continuous` fail — the
run succeeds with `NaN` statistics and an empty outlier set, so the code does
not raise `EmptyColumnError` for a column with zero non-missing values. -/
theorem c3_counterexample_all_missing :
    (⟨"x", true, [none, none, none]⟩ : Column).dropna = [] ∧
    dfAllNaN.col? "x" = some ⟨"x", true, [none, none, none]⟩ ∧
    study_column_continuous dfAllNaN "x" =
      .ok ⟨none, none, none, none, none, none, [], 0⟩ := by
  decide

/-- C3 amended: `study_column_continuous` fails with the Python `KeyError`
(not the spec's `ColumnNotFoundError`) exactly when the column is not a
member of the table; with the column present it fails with
`ZeroDivisionError` exactly when the table has zero rows; a column with rows
but zero non-missing values produces a successful run (no error at all); and
the spec's `EmptyColumnError`, `ColumnNotFoundError` and
`InvalidColumnTypeError` are never signalled. -/
theorem c3_error_kinds (df : DFrame) (col : String) :
    (df.col? col = none → study_column_continuous df col = .error (.keyError col)) ∧
    (∀ c, df.col? col = some c → df.nrows = 0 →
      study_column_continuous df col = .error .zeroDivisionError) ∧
    (∀ c, df.col? col = some c → df.nrows ≠ 0 →
      ∃ st, study_column_continuous df col = .ok st) ∧
    study_column_continuous df col ≠ .error .emptyColumnError ∧
    study_column_continuous df col ≠ .error .columnNotFoundError ∧
    study_column_continuous df col ≠ .error .invalidColumnTypeError := by
  refine ⟨?_, ?_, ?_, ?_⟩
  · intro h
    unfold study_column_continuous
    rw [h]
  · intro c hcol h0
    unfold study_column_continuous
    rw [hcol]
    exact if_pos h0
  · intro c hcol h0
    exact ⟨_, study_ok hcol h0⟩
  · unfold study_column_continuous
    cases hcol : df.col? col with
    | none => simp
    | some c =>
      by_cases h0 : df.nrows = 0 <;> simp [h0]

/-- Witness for `c3_error_kinds`: on `dfAllNaN` the lookup of the absent
column "y" raises `KeyError "y"`, while the all-missing column "x" yields a
successful run. -/
theorem c3_error_kinds_witness :
    study_column_continuous dfAllNaN "y" = .error (.keyError "y") ∧
    ∃ st, study_column_continuous dfAllNaN "x" = .ok st :=
  ⟨(c3_error_kinds dfAllNaN "y").1 (by decide),
   (c3_error_kinds dfAllNaN "x").2.2.1 ⟨"x", true, [none, none, none]⟩ (by decide) (by decide)⟩

/-- C5: the skew study of `study_column_continuous` reports "highly skewed"
iff `|skew| > 1`, "moderately skewed" iff `0.5 < |skew| <= 1`, and otherwise
(`|skew| <= 0.5`) reports neither, the approximately-symmetric case. -/
theorem c5_skew_classification (s : ℚ) :
    (classifySkew s = .highly ↔ 1 < |s|) ∧
    (classifySkew s = .moderately ↔ 1 / 2 < |s| ∧ |s| ≤ 1) ∧
    (classifySkew s = .symmetric ↔ |s| ≤ 1 / 2) := by
  have habs : (1 < |s| ↔ s < -1 ∨ 1 < s) := by
    rw [lt_abs]
    constructor
    · rintro (h | h)
      · right
        exact h
      · left
        linarith
    · rintro (h | h)
      · right
        linarith
      · left
        exact h
  have hmod : (1 / 2 < |s| ∧ |s| ≤ 1 ↔ (-1 ≤ s ∧ s < -(1 / 2)) ∨ (1 / 2 < s ∧ s ≤ 1)) := by
    rw [lt_abs, abs_le]
    constructor
    · rintro ⟨h | h, h1, h2⟩
      · right
        exact ⟨h, h2⟩
      · left
        exact ⟨h1, by linarith⟩
    · rintro (⟨h1, h2⟩ | ⟨h1, h2⟩)
      · exact ⟨Or.inr (by linarith), h1, by linarith⟩
      · exact ⟨Or.inl h1, by linarith, h2⟩
  unfold classifySkew
  split_ifs with h1 h2
  · have hh : 1 < |s| := habs.mpr h1
    refine ⟨⟨fun _ => hh, fun _ => rfl⟩,
      ⟨fun h => absurd h (by decide), fun h => absurd hh (not_lt.mpr h.2)⟩,
      ⟨fun h => absurd h (by decide), fun h => absurd hh (not_lt.mpr (le_trans h (by norm_num)))⟩⟩
  · have hh : 1 / 2 < |s| ∧ |s| ≤ 1 := by
      apply hmod.mpr
      rcases h2 with ⟨ha, hb⟩ | ⟨ha, hb⟩
      · left
        refine ⟨ha, ?_⟩
        norm_num at hb ⊢
        linarith
      · right
        refine ⟨?_, hb⟩
        norm_num at ha ⊢
        linarith
    refine ⟨⟨fun h => absurd h (by decide), fun h => absurd (habs.mp h) h1⟩,
      ⟨fun _ => hh, fun _ => rfl⟩,
      ⟨fun h => absurd h (by decide), fun h => absurd hh.1 (not_lt.mpr h)⟩⟩
  · push_neg at h1 h2
    have hs2 : |s| ≤ 1 / 2 := by
      rw [abs_le]
      constructor
      · have hm := h2.1 h1.1
        norm_num at hm ⊢
        linarith
      · by_contra hgt
        push_neg at hgt
        have hm := h2.2 (by norm_num; linarith)
        linarith [h1.2]
    refine ⟨⟨fun h => absurd h (by decide), fun h => ?_⟩,
      ⟨fun h => absurd h (by decide), fun h => ?_⟩,
      ⟨fun _ => hs2, fun _ => rfl⟩⟩
    · exfalso
      linarith
    · exfalso
      linarith [h.1]

/-- C6: the normality interpretation of `study_column_continuous` deems the
sample Gaussian exactly when the Shapiro-Wilk p-value exceeds 0.05; in
particular `p = 0.2` is Gaussian and `p = 0.01` is not. -/
theorem c6_gaussian_threshold (p : ℚ) :
    (is_gaussian p = true ↔ 0.05 < p) ∧
    is_gaussian 0.2 = true ∧
    is_gaussian 0.01 = false :=
  ⟨decide_eq_true_iff, by decide, by decide⟩

lemma le_foldr_max (xs : List ℕ) (x : ℕ) (hx : x ∈ xs) : x ≤ xs.foldr max 0 := by
  induction xs with
  | nil => cases hx
  | cons y ys ih =>
    rcases List.mem_cons.mp hx with rfl | h
    · exact le_max_left _ _
    · exact le_trans (ih h) (le_max_right _ _)

lemma count_le_maxCount (l : List ℚ) (v : ℚ) : l.count v ≤ maxCount l := by
  by_cases hv : v ∈ l
  · exact le_foldr_max _ _ (List.mem_map.mpr ⟨v, hv, rfl⟩)
  · rw [List.count_eq_zero.mpr hv]
    exact Nat.zero_le _

lemma mode0_spec {l : List ℚ} {m : ℚ} (hm : mode0 l = some m) :
    l.count m = maxCount l ∧ ∀ v, l.count v = maxCount l → m ≤ v := by
  unfold mode0 at hm
  have hsorted : (modeList l).Sorted (· ≤ ·) := List.sorted_insertionSort _ _
  obtain ⟨t, ht⟩ : ∃ t, modeList l = m :: t := by
    cases hml : modeList l with
    | nil => rw [hml] at hm; cases hm
    | cons x t =>
      rw [hml] at hm
      cases hm
      exact ⟨t, rfl⟩
  have hmem : m ∈ modeList l := by rw [ht]; exact List.mem_cons_self m t
  have hmemf := (List.mem_insertionSort _).mp hmem
  obtain ⟨hmd, hmc⟩ := List.mem_filter.mp hmemf
  have hmcount : l.count m = maxCount l := beq_iff_eq.mp hmc
  refine ⟨hmcount, fun v hv => ?_⟩
  have hvl : v ∈ l := by
    rw [← List.count_pos_iff]
    have hml : m ∈ l := List.mem_dedup.mp hmd
    have : 0 < l.count m := List.count_pos_iff.mpr hml
    omega
  have hvf : v ∈ modeList l := by
    apply (List.mem_insertionSort _).mpr
    apply List.mem_filter.mpr
    exact ⟨List.mem_dedup.mpr hvl, beq_iff_eq.mpr hv⟩
  rw [ht] at hvf
  rcases List.mem_cons.mp hvf with rfl | hvt
  · exact le_refl v
  · rw [ht] at hsorted
    exact (List.sorted_cons.mp hsorted).1 v hvt

/-- C9: the mode printed by the discrete-column and categorical-column
studies (`df[col].mode()[0]`) is a value of maximal frequency among the
column's non-missing values, and when several values tie for most frequent
it is the smallest of them; in particular the column `[1, 1, 2, 2]` has mode
`1`. -/
theorem c9_mode_tiebreak (df : DFrame) (col : String) (c : Column) (m : ℚ)
    (hc : df.col? col = some c)
    (hm : study_column_discrete_mode df col = .ok (some m)) :
    (study_column_categorical_mode df col = .ok (some m) ∧
      (∀ v, c.dropna.count v ≤ c.dropna.count m) ∧
      (∀ v, c.dropna.count v = c.dropna.count m → m ≤ v)) ∧
    study_column_discrete_mode df1122 "x" = .ok (some 1) ∧
    study_column_categorical_mode df1122 "x" = .ok (some 1) := by
  have hmode : mode0 c.dropna = some m := by
    unfold study_column_discrete_mode at hm
    rw [hc] at hm
    exact (Except.ok.injEq _ _).mp hm
  obtain ⟨hmax, hmin⟩ := mode0_spec hmode
  refine ⟨⟨?_, ?_, ?_⟩, by decide, by decide⟩
  · unfold study_column_categorical_mode
    rw [hc]
    exact congrArg Except.ok hmode
  · intro v
    rw [hmax]
    exact count_le_maxCount _ v
  · intro v hv
    rw [hmax] at hv
    exact hmin v hv

/-- Witness for `c9_mode_tiebreak` at the dataframe `df1122` holding
`[1, 1, 2, 2]`, whose mode is the smaller tied value `1`. -/
theorem c9_mode_tiebreak_witness :
    (study_column_categorical_mode df1122 "x" = .ok (some 1) ∧
      (∀ v, (⟨"x", true, [some 1, some 1, some 2, some 2]⟩ : Column).dropna.count v ≤
        (⟨"x", true, [some 1, some 1, some 2, some 2]⟩ : Column).dropna.count 1) ∧
      (∀ v, (⟨"x", true, [some 1, some 1, some 2, some 2]⟩ : Column).dropna.count v =
        (⟨"x", true, [some 1, some 1, some 2, some 2]⟩ : Column).dropna.count 1 → 1 ≤ v)) ∧
    study_column_discrete_mode df1122 "x" = .ok (some 1) ∧
    study_column_categorical_mode df1122 "x" = .ok (some 1) :=
  c9_mode_tiebreak df1122 "x" ⟨"x", true, [some 1, some 1, some 2, some 2]⟩ 1
    (by decide) (by decide)

/-- The column layout of the result dataframe of `count_outliers_per_column`
after at least one numeric column has been processed: the three columns
declared at line 202 followed by the four columns created by the first
`append` (whose record keys match none of the declared names). -/
def shapeFrame (n : ℕ) (a b c d e f g : List (Option RVal)) : RFrame :=
  ⟨[("Column", a), ("Number of high outliers", b), ("Number of low outliers", c),
    ("Number of High outliers", d), ("Number of Low outliers", e),
    ("High outliers %", f), ("Low outliers %", g)], n⟩

lemma appendRow_init (L : ℕ) (k : Column) :
    initRFrame.appendRow (makeRecord L k) =
      shapeFrame 1 [some (.str k.name)] [none] [none]
        [some (.num (highCount k))] [some (.num (lowCount k))]
        [some (.num (round2 (((highCount k : ℚ) * 100) / (L : ℚ))))]
        [some (.num (round2 (((lowCount k : ℚ) * 100) / (L : ℚ))))] := rfl

lemma appendRow_shape (L n : ℕ) (a b c d e f g : List (Option RVal)) (k : Column) :
    (shapeFrame n a b c d e f g).appendRow (makeRecord L k) =
      shapeFrame (n + 1) (a ++ [some (.str k.name)]) (b ++ [none]) (c ++ [none])
        (d ++ [some (.num (highCount k))]) (e ++ [some (.num (lowCount k))])
        (f ++ [some (.num (round2 (((highCount k : ℚ) * 100) / (L : ℚ))))])
        (g ++ [some (.num (round2 (((lowCount k : ℚ) * 100) / (L : ℚ))))]) := rfl

lemma cocLoop_shape (L : ℕ) (hL : L ≠ 0) (cs : List Column) :
    ∀ (n : ℕ) (a b c d e f g : List (Option RVal)),
    cocLoop L (shapeFrame n a b c d e f g) cs =
      .ok (shapeFrame (n + cs.length)
        (a ++ cs.map (fun k => some (RVal.str k.name)))
        (b ++ List.replicate cs.length none)
        (c ++ List.replicate cs.length none)
        (d ++ cs.map (fun k => some (RVal.num (highCount k))))
        (e ++ cs.map (fun k => some (RVal.num (lowCount k))))
        (f ++ cs.map (fun k => some (RVal.num (round2 (((highCount k : ℚ) * 100) / (L : ℚ))))))
        (g ++ cs.map (fun k => some (RVal.num (round2 (((lowCount k : ℚ) * 100) / (L : ℚ))))))) := by
  induction cs with
  | nil =>
    intro n a b c d e f g
    simp [cocLoop, shapeFrame]
  | cons k rest ih =>
    intro n a b c d e f g
    rw [cocLoop, if_neg hL, appendRow_shape, ih]
    simp only [shapeFrame, List.map_cons, List.length_cons, List.replicate_succ,
      List.append_assoc, List.singleton_append, Except.ok.injEq, RFrame.mk.injEq]
    exact ⟨trivial, by omega⟩

lemma count_outliers_eq {df : DFrame} (hn : df.nrows ≠ 0) {k : Column} {cs : List Column}
    (hcs : df.cols.filter (fun c => c.numeric) = k :: cs) :
    count_outliers_per_column df =
      .ok (shapeFrame (1 + cs.length)
        ((k :: cs).map (fun c => some (RVal.str c.name)))
        (List.replicate (k :: cs).length none)
        (List.replicate (k :: cs).length none)
        ((k :: cs).map (fun c => some (RVal.num (highCount c))))
        ((k :: cs).map (fun c => some (RVal.num (lowCount c))))
        ((k :: cs).map (fun c => some (RVal.num (round2 (((highCount c : ℚ) * 100) / (df.nrows : ℚ))))))
        ((k :: cs).map (fun c => some (RVal.num (round2 (((lowCount c : ℚ) * 100) / (df.nrows : ℚ))))))) := by
  unfold count_outliers_per_column
  rw [hcs, cocLoop, if_neg hn, appendRow_init, cocLoop_shape df.nrows hn]
  simp only [List.map_cons, List.length_cons, List.replicate_succ, List.singleton_append,
    List.cons_append, List.nil_append]

lemma lookup_shapeFrame_highOut (n : ℕ) (a b c d e f g : List (Option RVal)) :
    (shapeFrame n a b c d e f g).lookup "Number of high outliers" = some b := rfl

lemma lookup_shapeFrame_lowOut (n : ℕ) (a b c d e f g : List (Option RVal)) :
    (shapeFrame n a b c d e f g).lookup "Number of low outliers" = some c := rfl

lemma lookup_shapeFrame_highCap (n : ℕ) (a b c d e f g : List (Option RVal)) :
    (shapeFrame n a b c d e f g).lookup "Number of High outliers" = some d := rfl

lemma lookup_shapeFrame_lowCap (n : ℕ) (a b c d e f g : List (Option RVal)) :
    (shapeFrame n a b c d e f g).lookup "Number of Low outliers" = some e := rfl

lemma lookup_shapeFrame_highPct (n : ℕ) (a b c d e f g : List (Option RVal)) :
    (shapeFrame n a b c d e f g).lookup "High outliers %" = some f := rfl

lemma lookup_shapeFrame_lowPct (n : ℕ) (a b c d e f g : List (Option RVal)) :
    (shapeFrame n a b c d e f g).lookup "Low outliers %" = some g := rfl

/-- C10: for every table with at least one numeric column (and at least one
row, so that the computation returns), the dataframe returned by
`count_outliers_per_column` leaves the columns declared at line 202,
"Number of high outliers" and "Number of low outliers", missing (`NaN`) in
every row, because the records appended at lines 209-215 use the
differently-capitalised keys "Number of High outliers" and
"Number of Low outliers"; the actual counts appear only under those appended
keys. -/
theorem c10_capitalisation_mismatch (df : DFrame) (hn : df.nrows ≠ 0)
    (hnum : df.cols.filter (fun c => c.numeric) ≠ []) :
    ∃ rf, count_outliers_per_column df = .ok rf ∧
      rf.lookup "Number of high outliers" =
        some (List.replicate (df.cols.filter (fun c => c.numeric)).length none) ∧
      rf.lookup "Number of low outliers" =
        some (List.replicate (df.cols.filter (fun c => c.numeric)).length none) ∧
      rf.lookup "Number of High outliers" =
        some ((df.cols.filter (fun c => c.numeric)).map (fun c => some (RVal.num (highCount c)))) ∧
      rf.lookup "Number of Low outliers" =
        some ((df.cols.filter (fun c => c.numeric)).map (fun c => some (RVal.num (lowCount c)))) := by
  obtain ⟨k, cs, hcs⟩ : ∃ k cs, df.cols.filter (fun c => c.numeric) = k :: cs := by
    cases h : df.cols.filter (fun c => c.numeric) with
    | nil => exact absurd h hnum
    | cons k cs => exact ⟨k, cs, rfl⟩
  rw [hcs]
  exact ⟨_, count_outliers_eq hn hcs, lookup_shapeFrame_highOut _ _ _ _ _ _ _ _,
    lookup_shapeFrame_lowOut _ _ _ _ _ _ _ _, lookup_shapeFrame_highCap _ _ _ _ _ _ _ _,
    lookup_shapeFrame_lowCap _ _ _ _ _ _ _ _⟩

/-- Witness for `c10_capitalisation_mismatch` at the dataframe `df6`. -/
theorem c10_capitalisation_mismatch_witness :
    ∃ rf, count_outliers_per_column df6 = .ok rf ∧
      rf.lookup "Number of high outliers" =
        some (List.replicate (df6.cols.filter (fun c => c.numeric)).length none) ∧
      rf.lookup "Number of low outliers" =
        some (List.replicate (df6.cols.filter (fun c => c.numeric)).length none) ∧
      rf.lookup "Number of High outliers" =
        some ((df6.cols.filter (fun c => c.numeric)).map (fun c => some (RVal.num (highCount c)))) ∧
      rf.lookup "Number of Low outliers" =
        some ((df6.cols.filter (fun c => c.numeric)).map (fun c => some (RVal.num (lowCount c)))) :=
  c10_capitalisation_mismatch df6 (by decide) (by decide)

/-- C4: the outlier percentage is `round(count * 100 / len(df), 2)` in both
reports — the percentage printed by `study_column_continuous` (line 106) uses
the size of its outlier set, and the per-column report of
`count_outliers_per_column` (lines 213-214) uses each column's high/low
counts — where `round` rounds to 2 decimal places with ties to even
(`round2 0.125 = 0.12`, `round2 0.135 = 0.14`). -/
theorem c4_percentage_rounding (df : DFrame) (hn : df.nrows ≠ 0) :
    (∀ col st, study_column_continuous df col = .ok st →
      st.outlierPct = round2 (((st.outliers.length : ℚ) * 100) / (df.nrows : ℚ))) ∧
    (df.cols.filter (fun c => c.numeric) ≠ [] →
      ∀ rf, count_outliers_per_column df = .ok rf →
      rf.lookup "High outliers %" =
        some ((df.cols.filter (fun c => c.numeric)).map
          (fun c => some (RVal.num (round2 (((highCount c : ℚ) * 100) / (df.nrows : ℚ)))))) ∧
      rf.lookup "Low outliers %" =
        some ((df.cols.filter (fun c => c.numeric)).map
          (fun c => some (RVal.num (round2 (((lowCount c : ℚ) * 100) / (df.nrows : ℚ))))))) ∧
    round2 0.125 = 0.12 ∧ round2 0.135 = 0.14 := by
  refine ⟨?_, ?_, by decide, by decide⟩
  · intro col st h
    cases hcol : df.col? col with
    | none =>
      unfold study_column_continuous at h
      rw [hcol] at h
      cases h
    | some c =>
      rw [study_ok hcol hn] at h
      injection h with h2
      rw [← h2]
  · intro hnum rf h
    obtain ⟨k, cs, hcs⟩ : ∃ k cs, df.cols.filter (fun c => c.numeric) = k :: cs := by
      cases hh : df.cols.filter (fun c => c.numeric) with
      | nil => exact absurd hh hnum
      | cons k cs => exact ⟨k, cs, rfl⟩
    rw [count_outliers_eq hn hcs] at h
    injection h with h2
    rw [← h2, hcs]
    exact ⟨lookup_shapeFrame_highPct _ _ _ _ _ _ _ _, lookup_shapeFrame_lowPct _ _ _ _ _ _ _ _⟩

/-- Witness for `c4_percentage_rounding` at the dataframe `df6`. -/
theorem c4_percentage_rounding_witness :
    (∀ col st, study_column_continuous df6 col = .ok st →
      st.outlierPct = round2 (((st.outliers.length : ℚ) * 100) / (df6.nrows : ℚ))) ∧
    (df6.cols.filter (fun c => c.numeric) ≠ [] →
      ∀ rf, count_outliers_per_column df6 = .ok rf →
      rf.lookup "High outliers %" =
        some ((df6.cols.filter (fun c => c.numeric)).map
          (fun c => some (RVal.num (round2 (((highCount c : ℚ) * 100) / (df6.nrows : ℚ)))))) ∧
      rf.lookup "Low outliers %" =
        some ((df6.cols.filter (fun c => c.numeric)).map
          (fun c => some (RVal.num (round2 (((lowCount c : ℚ) * 100) / (df6.nrows : ℚ))))))) ∧
    round2 0.125 = 0.12 ∧ round2 0.135 = 0.14 :=
  c4_percentage_rounding df6 (by decide)

/-- C8: contrary to the claim, `count_outliers_per_column` applied to an
empty table (0 rows) with a numeric-typed column does not return an empty
mapping — the percentage expression `round((count*100)/len_df, 2)` divides
by `len(df) = 0` and raises `ZeroDivisionError`; and a column with rows but
all values missing does not raise `EmptyColumnError` — it is reported with
zero outlier counts. -/
theorem c8_empty_table_behaviour :
    count_outliers_per_column dfEmpty = .error .zeroDivisionError ∧
    count_outliers_per_column dfNaN2 =
      .ok (shapeFrame 1 [some (.str "x")] [none] [none] [some (.num 0)] [some (.num 0)]
        [some (.num 0)] [some (.num 0)]) := by
  decide
